import Mathlib

/-!
Shallow embedding of the document question-answering application
(`vectors.py` and `app.py`).  External collaborators — the filesystem,
the PDF loader, the text splitter, the Qdrant client, and the chatbot —
are modelled as oracles collected in an `Env` structure; exceptions are
modelled with `Except`, and the delegation calls actually performed by
`create_embeddings` are recorded in an explicit step trace.
-/

namespace RagSpec

/-- A document produced by the loader or the splitter (a langchain
`Document`); only the fact that it carries text matters here. -/
structure Doc where
  content : String
deriving DecidableEq

/-- One delegation call performed by `create_embeddings`:
`loader.load()`, `text_splitter.split_documents(docs)`, or
`Qdrant.from_documents(splits, ...)`. -/
inductive Step where
  | load
  | split
  | qdrant
deriving DecidableEq

/-- The exception classes that can propagate out of `create_embeddings`:
`FileNotFoundError`, `ValueError`, `ConnectionError`, or any other
exception raised by a delegated library call (carried with its message
and original type untouched). -/
inductive EmbedError where
  | fileNotFound (msg : String)
  | valueError (msg : String)
  | connectionError (msg : String)
  | other (msg : String)
deriving DecidableEq

/-- The external world as seen by `EmbeddingsManager.create_embeddings`:
`os.path.exists`, `UnstructuredPDFLoader(path).load()`,
`RecursiveCharacterTextSplitter(...).split_documents(docs)`, and
`Qdrant.from_documents(splits, ...)`.  The fallible library calls return
`Except String`, the error carrying the raised exception's message. -/
structure Env where
  exists_path : String → Bool
  load : String → Except String (List Doc)
  split_documents : List Doc → Except String (List Doc)
  from_documents : List Doc → Except String Unit

/-- `EmbeddingsManager.create_embeddings` (src/vectors.py, lines 39-78):
guard on `os.path.exists`, load, guard on empty docs, split, guard on
empty splits, then `Qdrant.from_documents` with any exception from that
call re-raised as `ConnectionError`.  Returns the outcome paired with the
trace of delegation calls made. -/
def create_embeddings (env : Env) (pdf_path : String) :
    Except EmbedError String × List Step :=
  if env.exists_path pdf_path = false then
    (.error (.fileNotFound ("The file " ++ pdf_path ++ " does not exits.")), [])
  else
    match env.load pdf_path with
    | .error e => (.error (.other e), [.load])
    | .ok docs =>
      if docs.isEmpty then
        (.error (.valueError "No documents were loaded"), [.load])
      else
        match env.split_documents docs with
        | .error e => (.error (.other e), [.load, .split])
        | .ok splits =>
          if splits.isEmpty then
            (.error (.valueError "No chunks were created from the documents"),
             [.load, .split])
          else
            match env.from_documents splits with
            | .error e =>
              (.error (.connectionError ("Failed to connect to Qdrant: " ++ e)),
               [.load, .split, .qdrant])
            | .ok _ =>
              (.ok "Vector DB Successfully Created and Stored in Qdrant!",
               [.load, .split, .qdrant])

/-- What the embeddings column of the UI shows for one attempt. -/
inductive UIOutcome where
  | success (msg : String)
  | errorShown (msg : String)
deriving DecidableEq

/-- The embeddings section of `app.py` (lines 101-135): runs
`create_embeddings` inside a `try`, shows the result with `st.success`,
and shows each of `FileNotFoundError`, `ValueError` and `ConnectionError`
directly with `st.error`; any other exception is caught by the generic
`except Exception` arm and shown as "An unexpected error occurred: ...". -/
def embeddings_section (env : Env) (path : String) : UIOutcome :=
  match (create_embeddings env path).1 with
  | .ok msg => .success msg
  | .error (.fileNotFound m) => .errorShown m
  | .error (.valueError m) => .errorShown m
  | .error (.connectionError m) => .errorShown m
  | .error (.other m) => .errorShown ("An unexpected error occurred: " ++ m)

/-- A transcript entry: `{"role": ..., "content": ...}`. -/
structure Message where
  role : String
  content : String
deriving DecidableEq

/-- The initial transcript: `st.session_state['messages'] = []`
(src/app.py, lines 28-29). -/
def initial_messages : List Message := []

/-- The chat input handler of `app.py` (lines 157-172): a falsy (empty)
input does nothing; otherwise the user message is appended, the answer is
computed by `chatbot_manager.get_response` with any exception turned into
an error text, and the assistant message is appended.  `get_response` is
an oracle returning either an answer or a raised exception's message. -/
def chat_input_handler (get_response : String → Except String String)
    (messages : List Message) (user_input : String) : List Message :=
  if user_input.isEmpty then
    messages
  else
    let withUser := messages ++ [⟨"user", user_input⟩]
    let answer :=
      match get_response user_input with
      | .ok a => a
      | .error e => "⚠️ An error occurred while processing your request: " ++ e
    withUser ++ [⟨"assistant", answer⟩]

/-- The invariant the spec states for transcript entries: the role is
`"user"` or `"assistant"` (the content is text by construction of
`Message`). -/
def validMessage (m : Message) : Prop :=
  m.role = "user" ∨ m.role = "assistant"

/-- Every message of the transcript satisfies `validMessage`. -/
def transcript_invariant (ms : List Message) : Prop :=
  ∀ m ∈ ms, validMessage m

/-! Concrete environments used by the witnesses. -/

/-- A one-chunk document. -/
def docA : Doc := ⟨"hello"⟩

/-- Everything works: the path exists, one document loads, the splitter
keeps it, Qdrant accepts it. -/
def envSuccess : Env where
  exists_path := fun _ => true
  load := fun _ => .ok [docA]
  split_documents := fun ds => .ok ds
  from_documents := fun _ => .ok ()

/-- The path does not exist. -/
def envMissing : Env :=
  { envSuccess with exists_path := fun _ => false }

/-- The loader yields no documents. -/
def envNoDocs : Env :=
  { envSuccess with load := fun _ => .ok [] }

/-- The splitter yields no chunks. -/
def envNoChunks : Env :=
  { envSuccess with split_documents := fun _ => .ok [] }

/-- Qdrant raises. -/
def envQdrantDown : Env :=
  { envSuccess with from_documents := fun _ => .error "connection refused" }

/-- A chatbot whose `get_response` always answers. -/
def respOk : String → Except String String := fun _ => .ok "hi"

/-- A chatbot whose `get_response` always raises. -/
def respBoom : String → Except String String := fun _ => .error "boom"

/-- Exhaustive classification of one run of `create_embeddings`: exactly
one of the seven control-flow paths of the source is taken. -/
theorem create_embeddings_classify (env : Env) (p : String) :
    (env.exists_path p = false ∧
      create_embeddings env p =
        (.error (.fileNotFound ("The file " ++ p ++ " does not exits.")), [])) ∨
    (env.exists_path p = true ∧ ∃ e, env.load p = .error e ∧
      create_embeddings env p = (.error (.other e), [.load])) ∨
    (env.exists_path p = true ∧ env.load p = .ok [] ∧
      create_embeddings env p =
        (.error (.valueError "No documents were loaded"), [.load])) ∨
    (env.exists_path p = true ∧ ∃ docs e, env.load p = .ok docs ∧ docs ≠ [] ∧
      env.split_documents docs = .error e ∧
      create_embeddings env p = (.error (.other e), [.load, .split])) ∨
    (env.exists_path p = true ∧ ∃ docs, env.load p = .ok docs ∧ docs ≠ [] ∧
      env.split_documents docs = .ok [] ∧
      create_embeddings env p =
        (.error (.valueError "No chunks were created from the documents"),
         [.load, .split])) ∨
    (env.exists_path p = true ∧ ∃ docs splits e, env.load p = .ok docs ∧ docs ≠ [] ∧
      env.split_documents docs = .ok splits ∧ splits ≠ [] ∧
      env.from_documents splits = .error e ∧
      create_embeddings env p =
        (.error (.connectionError ("Failed to connect to Qdrant: " ++ e)),
         [.load, .split, .qdrant])) ∨
    (env.exists_path p = true ∧ ∃ docs splits, env.load p = .ok docs ∧ docs ≠ [] ∧
      env.split_documents docs = .ok splits ∧ splits ≠ [] ∧
      env.from_documents splits = .ok () ∧
      create_embeddings env p =
        (.ok "Vector DB Successfully Created and Stored in Qdrant!",
         [.load, .split, .qdrant])) := by
  cases hex : env.exists_path p with
  | false =>
    exact .inl ⟨rfl, by simp [create_embeddings, hex]⟩
  | true =>
    cases hl : env.load p with
    | error e =>
      exact .inr (.inl ⟨rfl, e, rfl, by simp [create_embeddings, hex, hl]⟩)
    | ok docs =>
      cases docs with
      | nil =>
        exact .inr (.inr (.inl ⟨rfl, rfl, by simp [create_embeddings, hex, hl]⟩))
      | cons d ds =>
        cases hs : env.split_documents (d :: ds) with
        | error e =>
          exact .inr (.inr (.inr (.inl ⟨rfl, d :: ds, e, rfl, by simp, hs,
            by simp [create_embeddings, hex, hl, hs]⟩)))
        | ok splits =>
          cases splits with
          | nil =>
            exact .inr (.inr (.inr (.inr (.inl ⟨rfl, d :: ds, rfl, by simp, hs,
              by simp [create_embeddings, hex, hl, hs]⟩))))
          | cons c cs =>
            cases hq : env.from_documents (c :: cs) with
            | error e =>
              exact .inr (.inr (.inr (.inr (.inr (.inl ⟨rfl, d :: ds, c :: cs, e,
                rfl, by simp, hs, by simp, hq,
                by simp [create_embeddings, hex, hl, hs, hq]⟩)))))
            | ok a =>
              exact .inr (.inr (.inr (.inr (.inr (.inr ⟨rfl, d :: ds, c :: cs,
                rfl, by simp, hs, by simp, hq,
                by simp [create_embeddings, hex, hl, hs, hq]⟩)))))

/-- Claim C1: for every submitted non-empty user input, the chat handler
appends the user message and then its corresponding assistant response,
so the new transcript is the old one extended by exactly those two
messages in that order. -/
theorem C1_transcript_append (f : String → Except String String)
    (ms : List Message) (input : String) (h : input ≠ "") :
    ∃ answer, chat_input_handler f ms input =
      ms ++ [⟨"user", input⟩, ⟨"assistant", answer⟩] := by
  have hne : input.isEmpty = false := by
    cases he : input.isEmpty
    · rfl
    · exact absurd ((String.isEmpty_iff input).mp he) h
  refine ⟨(match f input with
    | .ok a => a
    | .error e => "⚠️ An error occurred while processing your request: " ++ e), ?_⟩
  simp [chat_input_handler, hne]

/-- Witness for C1 at a concrete input. -/
theorem C1_transcript_append_witness :
    ("hello" ≠ "") ∧
    ∃ answer, chat_input_handler (fun _ => Except.ok "hi") [] "hello" =
      [] ++ [⟨"user", "hello"⟩, ⟨"assistant", answer⟩] :=
  ⟨by decide, C1_transcript_append (fun _ => Except.ok "hi") [] "hello" (by decide)⟩

/-- Claim C2: indexing a path that does not exist raises
`FileNotFoundError` with a message naming the path, and performs no
load, split, or vector-database operation (the trace is empty). -/
theorem C2_missing_file (env : Env) (p : String)
    (h : env.exists_path p = false) :
    create_embeddings env p =
      (.error (.fileNotFound ("The file " ++ p ++ " does not exits.")), []) := by
  simp [create_embeddings, h]

/-- Witness for C2 at a concrete input. -/
theorem C2_missing_file_witness :
    envMissing.exists_path "temp.pdf" = false ∧
    create_embeddings envMissing "temp.pdf" =
      (.error (.fileNotFound ("The file " ++ "temp.pdf" ++ " does not exits.")), []) :=
  ⟨rfl, C2_missing_file envMissing "temp.pdf" rfl⟩

/-- Claim C9: if `get_response` raises, the handler still appends an
assistant message whose content embeds the exception, right after the
user message. -/
theorem C9_error_response_appended (f : String → Except String String)
    (ms : List Message) (input e : String)
    (h1 : input ≠ "") (h2 : f input = .error e) :
    chat_input_handler f ms input =
      ms ++ [⟨"user", input⟩,
        ⟨"assistant", "⚠️ An error occurred while processing your request: " ++ e⟩] := by
  have hne : input.isEmpty = false := by
    cases he : input.isEmpty
    · rfl
    · exact absurd ((String.isEmpty_iff input).mp he) h1
  simp [chat_input_handler, hne, h2]

/-- Witness for C9 at a concrete input. -/
theorem C9_error_response_appended_witness :
    ("hello" ≠ "") ∧ (respBoom "hello" = .error "boom") ∧
    chat_input_handler respBoom [] "hello" =
      [] ++ [⟨"user", "hello"⟩,
        ⟨"assistant", "⚠️ An error occurred while processing your request: " ++ "boom"⟩] :=
  ⟨by decide, rfl,
    C9_error_response_appended respBoom [] "hello" "boom" (by decide) rfl⟩

/-- Claim C3: an existing document from which the loader yields no
documents, or whose loaded documents the splitter turns into no chunks,
makes `create_embeddings` raise `ValueError`, and the vector database is
never contacted. -/
theorem C3_empty_content (env : Env) (p : String)
    (hex : env.exists_path p = true)
    (h : env.load p = .ok [] ∨
      ∃ docs, env.load p = .ok docs ∧ docs ≠ [] ∧
        env.split_documents docs = .ok []) :
    (∃ m, (create_embeddings env p).1 = .error (.valueError m)) ∧
    Step.qdrant ∉ (create_embeddings env p).2 := by
  rcases h with h | ⟨docs, hl, hd, hs⟩
  · have hc : create_embeddings env p =
        (.error (.valueError "No documents were loaded"), [.load]) := by
      simp [create_embeddings, hex, h]
    rw [hc]
    exact ⟨⟨_, rfl⟩, by decide⟩
  · cases docs with
    | nil => exact absurd rfl hd
    | cons d ds =>
      have hc : create_embeddings env p =
          (.error (.valueError "No chunks were created from the documents"),
           [.load, .split]) := by
        simp [create_embeddings, hex, hl, hs]
      rw [hc]
      exact ⟨⟨_, rfl⟩, by decide⟩

/-- Witness for C3 at a concrete input. -/
theorem C3_empty_content_witness :
    envNoDocs.exists_path "temp.pdf" = true ∧
    envNoDocs.load "temp.pdf" = .ok [] ∧
    ((∃ m, (create_embeddings envNoDocs "temp.pdf").1 = .error (.valueError m)) ∧
     Step.qdrant ∉ (create_embeddings envNoDocs "temp.pdf").2) :=
  ⟨rfl, rfl, C3_empty_content envNoDocs "temp.pdf" rfl (Or.inl rfl)⟩

/-- Claim C4: when the vector-database step fails, `create_embeddings`
raises `ConnectionError` describing the failure, and the UI layer catches
it and displays the message as a user-visible error. -/
theorem C4_connection_error_reported (env : Env) (p : String)
    (docs splits : List Doc) (e : String)
    (hex : env.exists_path p = true)
    (hl : env.load p = .ok docs) (hd : docs ≠ [])
    (hs : env.split_documents docs = .ok splits) (hsp : splits ≠ [])
    (hq : env.from_documents splits = .error e) :
    (create_embeddings env p).1 =
      .error (.connectionError ("Failed to connect to Qdrant: " ++ e)) ∧
    embeddings_section env p =
      .errorShown ("Failed to connect to Qdrant: " ++ e) := by
  have hd' : docs.isEmpty = false := by
    cases docs
    · exact absurd rfl hd
    · rfl
  have hsp' : splits.isEmpty = false := by
    cases splits
    · exact absurd rfl hsp
    · rfl
  have hc : (create_embeddings env p).1 =
      .error (.connectionError ("Failed to connect to Qdrant: " ++ e)) := by
    simp [create_embeddings, hex, hl, hd', hs, hsp', hq]
  exact ⟨hc, by simp [embeddings_section, hc]⟩

/-- Witness for C4 at a concrete input. -/
theorem C4_connection_error_reported_witness :
    envQdrantDown.from_documents [docA] = .error "connection refused" ∧
    ((create_embeddings envQdrantDown "temp.pdf").1 =
      .error (.connectionError
        ("Failed to connect to Qdrant: " ++ "connection refused")) ∧
     embeddings_section envQdrantDown "temp.pdf" =
      .errorShown ("Failed to connect to Qdrant: " ++ "connection refused")) :=
  ⟨rfl, C4_connection_error_reported envQdrantDown "temp.pdf" [docA] [docA]
    "connection refused" rfl rfl (by decide) rfl (by decide) rfl⟩

/-- Claim C5: every run of the indexing operation surfaces exactly one of
success, `FileNotFoundError`, `ValueError` or `ConnectionError` directly
as a user-visible message, and every other exception is caught
generically and displayed with the "unexpected error" prefix rather than
propagated. -/
theorem C5_error_surfacing (env : Env) (p : String) :
    (∃ m, (create_embeddings env p).1 = .ok m ∧
      embeddings_section env p = .success m) ∨
    (∃ m, (create_embeddings env p).1 = .error (.fileNotFound m) ∧
      embeddings_section env p = .errorShown m) ∨
    (∃ m, (create_embeddings env p).1 = .error (.valueError m) ∧
      embeddings_section env p = .errorShown m) ∨
    (∃ m, (create_embeddings env p).1 = .error (.connectionError m) ∧
      embeddings_section env p = .errorShown m) ∨
    (∃ m, (create_embeddings env p).1 = .error (.other m) ∧
      embeddings_section env p =
        .errorShown ("An unexpected error occurred: " ++ m)) := by
  cases hr : (create_embeddings env p).1 with
  | ok m => exact .inl ⟨m, rfl, by simp [embeddings_section, hr]⟩
  | error err =>
    cases err with
    | fileNotFound m =>
      exact .inr (.inl ⟨m, rfl, by simp [embeddings_section, hr]⟩)
    | valueError m =>
      exact .inr (.inr (.inl ⟨m, rfl, by simp [embeddings_section, hr]⟩))
    | connectionError m =>
      exact .inr (.inr (.inr (.inl ⟨m, rfl, by simp [embeddings_section, hr]⟩)))
    | other m =>
      exact .inr (.inr (.inr (.inr ⟨m, rfl, by simp [embeddings_section, hr]⟩)))

/-- Claim C6: a successful run hands the path to the loader, the loaded
documents to the splitter, and the resulting chunks to the vector-database
client, in that order, and returns the success-message string. -/
theorem C6_success_pipeline (env : Env) (p : String) (msg : String)
    (h : (create_embeddings env p).1 = .ok msg) :
    msg = "Vector DB Successfully Created and Stored in Qdrant!" ∧
    (create_embeddings env p).2 = [Step.load, Step.split, Step.qdrant] ∧
    ∃ docs splits, env.load p = .ok docs ∧ docs ≠ [] ∧
      env.split_documents docs = .ok splits ∧ splits ≠ [] ∧
      env.from_documents splits = .ok () := by
  rcases create_embeddings_classify env p with
    ⟨_, hc⟩ | ⟨_, _, _, hc⟩ | ⟨_, _, hc⟩ | ⟨_, _, _, _, _, _, hc⟩ |
    ⟨_, _, _, _, _, hc⟩ | ⟨_, _, _, _, _, _, _, _, _, hc⟩ |
    ⟨_, docs, splits, hl, hd, hs, hsp, hq, hc⟩
  · simp [hc] at h
  · simp [hc] at h
  · simp [hc] at h
  · simp [hc] at h
  · simp [hc] at h
  · simp [hc] at h
  · rw [hc] at h
    refine ⟨(Except.ok.inj h).symm, ?_, docs, splits, hl, hd, hs, hsp, hq⟩
    rw [hc]

/-- Witness for C6 at a concrete input. -/
theorem C6_success_pipeline_witness :
    (create_embeddings envSuccess "temp.pdf").1 =
      .ok "Vector DB Successfully Created and Stored in Qdrant!" ∧
    ("Vector DB Successfully Created and Stored in Qdrant!" =
        "Vector DB Successfully Created and Stored in Qdrant!" ∧
      (create_embeddings envSuccess "temp.pdf").2 =
        [Step.load, Step.split, Step.qdrant] ∧
      ∃ docs splits, envSuccess.load "temp.pdf" = .ok docs ∧ docs ≠ [] ∧
        envSuccess.split_documents docs = .ok splits ∧ splits ≠ [] ∧
        envSuccess.from_documents splits = .ok ()) :=
  ⟨rfl, C6_success_pipeline envSuccess "temp.pdf"
    "Vector DB Successfully Created and Stored in Qdrant!" rfl⟩

/-- Claim C7: starting from the empty initial transcript, every message
has role "user" or "assistant" (with content text), and the chat input
handler preserves this invariant. -/
theorem C7_transcript_roles (f : String → Except String String)
    (ms : List Message) (input : String)
    (h : transcript_invariant ms) :
    transcript_invariant initial_messages ∧
    transcript_invariant (chat_input_handler f ms input) := by
  constructor
  · intro m hm
    simp [initial_messages] at hm
  · intro m hm
    unfold chat_input_handler at hm
    by_cases he : input.isEmpty = true
    · rw [if_pos he] at hm
      exact h m hm
    · rw [if_neg he] at hm
      simp only [List.mem_append, List.mem_singleton] at hm
      rcases hm with (hm | rfl) | rfl
      · exact h m hm
      · exact Or.inl rfl
      · exact Or.inr rfl

/-- Witness for C7 at a concrete input. -/
theorem C7_transcript_roles_witness :
    transcript_invariant [] ∧
    (transcript_invariant initial_messages ∧
     transcript_invariant (chat_input_handler respOk [] "hello")) :=
  ⟨by simp [transcript_invariant],
   C7_transcript_roles respOk [] "hello" (by simp [transcript_invariant])⟩

/-- Claim C8: whatever the vector-store step does, no exception escapes
with its original type: the run either succeeds, or the exception raised
by `Qdrant.from_documents` is re-raised as a `ConnectionError` whose
message embeds the original error. -/
theorem C8_qdrant_errors_wrapped (env : Env) (p : String)
    (docs splits : List Doc)
    (hex : env.exists_path p = true)
    (hl : env.load p = .ok docs) (hd : docs ≠ [])
    (hs : env.split_documents docs = .ok splits) (hsp : splits ≠ []) :
    (env.from_documents splits = .ok () ∧
      (create_embeddings env p).1 =
        .ok "Vector DB Successfully Created and Stored in Qdrant!") ∨
    (∃ e, env.from_documents splits = .error e ∧
      (create_embeddings env p).1 =
        .error (.connectionError ("Failed to connect to Qdrant: " ++ e))) := by
  have hd' : docs.isEmpty = false := by
    cases docs
    · exact absurd rfl hd
    · rfl
  have hsp' : splits.isEmpty = false := by
    cases splits
    · exact absurd rfl hsp
    · rfl
  cases hq : env.from_documents splits with
  | error e =>
    exact .inr ⟨e, rfl, by simp [create_embeddings, hex, hl, hd', hs, hsp', hq]⟩
  | ok a =>
    exact .inl ⟨rfl, by simp [create_embeddings, hex, hl, hd', hs, hsp', hq]⟩

/-- Witness for C8 at a concrete input. -/
theorem C8_qdrant_errors_wrapped_witness :
    envQdrantDown.exists_path "temp.pdf" = true ∧
    ((envQdrantDown.from_documents [docA] = .ok () ∧
        (create_embeddings envQdrantDown "temp.pdf").1 =
          .ok "Vector DB Successfully Created and Stored in Qdrant!") ∨
      (∃ e, envQdrantDown.from_documents [docA] = .error e ∧
        (create_embeddings envQdrantDown "temp.pdf").1 =
          .error (.connectionError ("Failed to connect to Qdrant: " ++ e)))) :=
  ⟨rfl, C8_qdrant_errors_wrapped envQdrantDown "temp.pdf" [docA] [docA]
    rfl rfl (by decide) rfl (by decide)⟩

/-- Claim C10: when `create_embeddings` fails with `FileNotFoundError` or
`ValueError`, it has made no call to the vector-database client. -/
theorem C10_guard_errors_no_db (env : Env) (p : String) (m : String)
    (h : (create_embeddings env p).1 = .error (.fileNotFound m) ∨
         (create_embeddings env p).1 = .error (.valueError m)) :
    Step.qdrant ∉ (create_embeddings env p).2 := by
  rcases create_embeddings_classify env p with
    ⟨_, hc⟩ | ⟨_, _, _, hc⟩ | ⟨_, _, hc⟩ | ⟨_, _, _, _, _, _, hc⟩ |
    ⟨_, _, _, _, _, hc⟩ | ⟨_, _, _, _, _, _, _, _, _, hc⟩ |
    ⟨_, _, _, _, _, _, _, _, hc⟩
  · rw [hc]; simp
  · rw [hc]; simp
  · rw [hc]; simp
  · rw [hc]; simp
  · rw [hc]; simp
  · rcases h with h | h <;> simp [hc] at h
  · rcases h with h | h <;> simp [hc] at h

/-- Witness for C10 at a concrete input. -/
theorem C10_guard_errors_no_db_witness :
    ((create_embeddings envMissing "temp.pdf").1 =
        .error (.fileNotFound ("The file " ++ "temp.pdf" ++ " does not exits.")) ∨
      (create_embeddings envMissing "temp.pdf").1 =
        .error (.valueError ("The file " ++ "temp.pdf" ++ " does not exits."))) ∧
    Step.qdrant ∉ (create_embeddings envMissing "temp.pdf").2 :=
  ⟨Or.inl rfl,
   C10_guard_errors_no_db envMissing "temp.pdf"
     ("The file " ++ "temp.pdf" ++ " does not exits.") (Or.inl rfl)⟩

end RagSpec
